import Mathlib

/-!
Verification of `antlir/antlir2/antlir2_rootless/unshare_userns/unshare_userns.c`.

The C function `unshare_userns` orchestrates a three-process handshake:
the Main Process (Orchestrator) creates a pipe, forks Child 1 (the
Delegate), unshares into a new user namespace, and signals Child 1 by
closing pipe ends; Child 1 forks Child 2 (the Sub-delegate) which execs
`/usr/bin/newgidmap`, then Child 1 itself execs `/usr/bin/newuidmap`;
the Main Process waits for Child 1's exit status.

We shallowly embed each of the three process bodies as a function from
an environment (the outcomes of the system calls the code branches on)
to an outcome together with the ordered list of operations (events) the
process performs.  Every branch and every event mirrors a line of the C
source; operation results the C code ignores are events without an
environment flag.
-/

namespace UnshareUserns

/-- The two ends of the pipe created by `pipe(pipefd)`: `pipefd[0]` is the
read end, `pipefd[1]` is the write end. -/
inductive Fd
  | readEnd
  | writeEnd
deriving DecidableEq, Repr

/-- Operations a process performs, recorded in program order.  Each
constructor corresponds to one libc/syscall invocation in the C source.
`evAlloc` stands for a dynamic heap allocation; the source performs none
in the children, so no embedded child body ever emits it. -/
inductive Event
  | evPipe
  | evFork1
  | evClose (fd : Fd)
  | evRead
  | evUnshare
  | evFork2
  | evWait1
  | evWait2
  | evExec (path : String) (args : List String)
  | evPerror (msg : String)
  | evAlloc
deriving DecidableEq, Repr

/-- The seven `char*` arguments of `unshare_userns`. -/
structure Maps where
  pid_str : String
  uid_map_outside_root : String
  uid_map_outside_sub_start : String
  uid_map_len : String
  gid_map_outside_root : String
  gid_map_outside_sub_start : String
  gid_map_len : String
deriving DecidableEq, Repr

/-- The `args` array passed to `execv("/usr/bin/newgidmap", args)` in the
Child 2 branch (without the terminating NULL). -/
def gidmapArgs (m : Maps) : List String :=
  ["newgidmap", m.pid_str, "0", m.gid_map_outside_root, "1", "1",
   m.gid_map_outside_sub_start, m.gid_map_len]

/-- The `args` array passed to `execv("/usr/bin/newuidmap", args)` in the
Child 1 branch (without the terminating NULL). -/
def uidmapArgs (m : Maps) : List String :=
  ["newuidmap", m.pid_str, "0", m.uid_map_outside_root, "1", "1",
   m.uid_map_outside_sub_start, m.uid_map_len]

/-- Possible outcomes of `read(pipefd[0], &buf, 1)` in Child 1: a byte was
delivered, end-of-file (every write end closed), or an error.  The C code
ignores the return value and the buffer, so no embedded body consults it. -/
inductive ReadResult
  | gotByte (b : Nat)
  | eof
  | err
deriving DecidableEq, Repr

/-- Linux raw wait status of a process that called `exit(code)`:
the exit code is in bits 8..15 and the low 7 bits are zero. -/
def encodeExit (code : Nat) : Nat := (code % 256) * 256

/-- `WIFEXITED(status)`: the low 7 bits of the raw status are zero. -/
def wifexited (s : Nat) : Bool := s % 128 == 0

/-- `WEXITSTATUS(status)`: bits 8..15 of the raw status. -/
def wexitstatus (s : Nat) : Nat := s / 256 % 256

/-- The test `!WIFEXITED(status) || (WEXITSTATUS(status) != 0)` used at
both wait sites of the C source. -/
def mapFailed (s : Nat) : Bool := !(wifexited s) || (wexitstatus s != 0)

/-- One execution environment: outcomes of each fallible operation, in
the order the processes perform them.  Raw statuses of the two external
mapping programs are arbitrary naturals in the Linux wait-status
encoding. -/
structure SysEnv where
  pipeOk : Bool
  fork1Ok : Bool
  delegateCloseWriteOk : Bool
  readResult : ReadResult
  fork2Ok : Bool
  gidExecOk : Bool
  gidProgStatus : Nat
  wait2Ok : Bool
  uidExecOk : Bool
  uidProgStatus : Nat
  unshareOk : Bool
  parentCloseReadOk : Bool
  wait1Ok : Bool
deriving DecidableEq, Repr

/-- Terminal outcome of a child process: it either replaced its image via
a successful `execv`, or terminated by `exit` with the given code. -/
inductive ChildOutcome
  | execed (path : String) (args : List String)
  | exited (code : Nat)
deriving DecidableEq, Repr

/-- Outcome of the `unshare_userns` call in the Main Process: either the
function returns the given value to its caller, or the whole process is
terminated by `exit(EXIT_FAILURE)` and the function never returns. -/
inductive ParentResult
  | ret (v : Int)
  | exitFail
deriving DecidableEq, Repr

/-- Child 2 (the Sub-delegate): the `case 0:` branch of the inner
`switch (child2)`.  It builds the newgidmap argument vector and execs
`/usr/bin/newgidmap`; if `execv` returns -1 it perrors and exits
`EXIT_FAILURE` (= 1). -/
def subDelegate (e : SysEnv) (m : Maps) : ChildOutcome × List Event :=
  if e.gidExecOk then
    (.execed "/usr/bin/newgidmap" (gidmapArgs m),
     [.evExec "/usr/bin/newgidmap" (gidmapArgs m)])
  else
    (.exited 1,
     [.evExec "/usr/bin/newgidmap" (gidmapArgs m), .evPerror "exec newgidmap"])

/-- The raw wait status Child 1's `waitpid(child2, ...)` observes: the gid
program's own status when the exec succeeded, else Child 2's
`exit(EXIT_FAILURE)`. -/
def child2Status (e : SysEnv) (m : Maps) : Nat :=
  match (subDelegate e m).1 with
  | .execed _ _ => e.gidProgStatus
  | .exited c => encodeExit c

/-- Child 1 (the Delegate): the `case 0:` branch of the outer
`switch (child1)`.  It closes its copy of the write end (exiting with
failure if that close fails), performs the blocking `read` on the read
end ignoring its result, closes the read end ignoring the result, forks
Child 2, waits for it, and — only when Child 2 exited with status 0 —
execs `/usr/bin/newuidmap`. -/
def delegate (e : SysEnv) (m : Maps) : ChildOutcome × List Event :=
  if e.delegateCloseWriteOk then
    if e.fork2Ok then
      if e.wait2Ok then
        if mapFailed (child2Status e m) then
          (.exited 1,
           [.evClose .writeEnd, .evRead, .evClose .readEnd, .evFork2, .evWait2])
        else
          if e.uidExecOk then
            (.execed "/usr/bin/newuidmap" (uidmapArgs m),
             [.evClose .writeEnd, .evRead, .evClose .readEnd, .evFork2, .evWait2,
              .evExec "/usr/bin/newuidmap" (uidmapArgs m)])
          else
            (.exited 1,
             [.evClose .writeEnd, .evRead, .evClose .readEnd, .evFork2, .evWait2,
              .evExec "/usr/bin/newuidmap" (uidmapArgs m), .evPerror "exec newuidmap"])
      else
        (.exited 1,
         [.evClose .writeEnd, .evRead, .evClose .readEnd, .evFork2, .evWait2])
    else
      (.exited 1, [.evClose .writeEnd, .evRead, .evClose .readEnd, .evFork2])
  else
    (.exited 1, [.evClose .writeEnd])

/-- The raw wait status the Main Process's `waitpid(child1, ...)`
observes: the uid program's own status when Child 1 execed it, else
Child 1's own exit code. -/
def child1Status (e : SysEnv) (m : Maps) : Nat :=
  match (delegate e m).1 with
  | .execed _ _ => e.uidProgStatus
  | .exited c => encodeExit c

/-- The Main Process body of `unshare_userns`: `pipe`, `fork`, and the
`default:` (parent) branch of `switch (child1)` — it closes `pipefd[1]`
(unchecked), calls `unshare(CLONE_NEWUSER)` (on failure closes
`pipefd[0]` and returns -1), closes `pipefd[0]` (on failure returns -1),
waits for Child 1 (on `waitpid` failure calls `exit(EXIT_FAILURE)`), and
returns Child 1's raw status when it did not exit 0, else 0. -/
def unshare_userns (e : SysEnv) (m : Maps) : ParentResult × List Event :=
  if e.pipeOk then
    if e.fork1Ok then
      if e.unshareOk then
        if e.parentCloseReadOk then
          if e.wait1Ok then
            if mapFailed (child1Status e m) then
              (.ret (Int.ofNat (child1Status e m)),
               [.evPipe, .evFork1, .evClose .writeEnd, .evUnshare,
                .evClose .readEnd, .evWait1])
            else
              (.ret 0,
               [.evPipe, .evFork1, .evClose .writeEnd, .evUnshare,
                .evClose .readEnd, .evWait1])
          else
            (.exitFail,
             [.evPipe, .evFork1, .evClose .writeEnd, .evUnshare,
              .evClose .readEnd, .evWait1])
        else
          (.ret (-1),
           [.evPipe, .evFork1, .evClose .writeEnd, .evUnshare, .evClose .readEnd])
      else
        (.ret (-1),
         [.evPipe, .evFork1, .evClose .writeEnd, .evUnshare, .evClose .readEnd])
    else
      (.ret (-1), [.evPipe, .evFork1, .evClose .readEnd, .evClose .writeEnd])
  else
    (.ret (-1), [.evPipe])

/-- The Child 2 wait status check of the C source succeeded: `waitpid`
returned without error and the status passed
`WIFEXITED(status) && WEXITSTATUS(status) == 0`. -/
def gidSuccess (e : SysEnv) (m : Maps) : Bool :=
  e.wait2Ok && !(mapFailed (child2Status e m))

/-- Concrete argument strings for test executions. -/
def m0 : Maps :=
  ⟨"1234", "0", "100000", "65536", "0", "100000", "65536"⟩

/-- An execution in which every operation succeeds and both mapping
programs exit 0. -/
def envOK : SysEnv :=
  { pipeOk := true
    fork1Ok := true
    delegateCloseWriteOk := true
    readResult := .eof
    fork2Ok := true
    gidExecOk := true
    gidProgStatus := 0
    wait2Ok := true
    uidExecOk := true
    uidProgStatus := 0
    unshareOk := true
    parentCloseReadOk := true
    wait1Ok := true }

/-- Like `envOK`, but `unshare(CLONE_NEWUSER)` fails. -/
def envUnshareFail : SysEnv := { envOK with unshareOk := false }

/-- Like `envOK`, but the newuidmap program exits with status 1. -/
def envUidFail : SysEnv := { envOK with uidProgStatus := encodeExit 1 }

/-- Like `envOK`, but the newgidmap program exits with status 1. -/
def envGidFail : SysEnv := { envOK with gidProgStatus := encodeExit 1 }

/-- Like `envOK`, but the parent's post-unshare `close(pipefd[0])` fails. -/
def envCloseFail : SysEnv := { envOK with parentCloseReadOk := false }

/-- Like `envOK`, but `pipe(pipefd)` fails, before anything is spawned. -/
def envPipeFail : SysEnv := { envOK with pipeOk := false }

/-- Like `envOK`, but the parent's `waitpid(child1, ...)` fails. -/
def envWaitFail : SysEnv := { envOK with wait1Ok := false }

/-- Like `envOK`, but Child 1's `close(pipefd[1])` fails. -/
def envDelegateCloseFail : SysEnv := { envOK with delegateCloseWriteOk := false }

/-- Claim C1: the claim states that the parent closes the channel's write
end only after the unshare operation has been issued.  The code does the
opposite: on every execution that reaches the parent branch of the fork,
`close(pipefd[1])` is the third event, strictly before
`unshare(CLONE_NEWUSER)` — contradicting the claim and the source file's
own comments (header steps 2–3 and the parent-branch comment). -/
theorem C1_write_end_closed_before_unshare (e : SysEnv) (m : Maps)
    (hp : e.pipeOk = true) (hf : e.fork1Ok = true) :
    (unshare_userns e m).2.take 4 =
      [Event.evPipe, Event.evFork1, Event.evClose Fd.writeEnd, Event.evUnshare] := by
  cases hu : e.unshareOk <;> cases hc : e.parentCloseReadOk <;>
    cases hw : e.wait1Ok <;> cases hm : mapFailed (child1Status e m) <;>
      simp [unshare_userns, hp, hf, hu, hc, hw, hm]

/-- Claim C1 witness: the ordering at the all-successful execution. -/
theorem C1_write_end_closed_before_unshare_witness :
    (unshare_userns envOK m0).2.take 4 =
      [Event.evPipe, Event.evFork1, Event.evClose Fd.writeEnd, Event.evUnshare] :=
  C1_write_end_closed_before_unshare envOK m0 rfl rfl

/-- Claim C2 counterexample: when `unshare(CLONE_NEWUSER)` fails, the call
returns -1 with the Delegate already spawned (`evFork1` occurred) but
never reaped (`evWait1` never occurs), so the claim that every exit path
reaps each spawned child is false. -/
theorem C2_counterexample :
    (unshare_userns envUnshareFail m0).1 = ParentResult.ret (-1) ∧
    Event.evFork1 ∈ (unshare_userns envUnshareFail m0).2 ∧
    Event.evWait1 ∉ (unshare_userns envUnshareFail m0).2 := by decide

/-- Claim C2, amended: the parent reaps the Delegate exactly once when the
unshare and the subsequent `close(pipefd[0])` both succeed; on the unshare
failure path and on the close failure path it returns without reaping. -/
theorem C2_delegate_reaped_only_past_close (e : SysEnv) (m : Maps)
    (hp : e.pipeOk = true) (hf : e.fork1Ok = true) :
    (unshare_userns e m).2.count Event.evWait1 =
      (if e.unshareOk && e.parentCloseReadOk then 1 else 0) := by
  cases hu : e.unshareOk <;> cases hc : e.parentCloseReadOk <;>
    cases hw : e.wait1Ok <;> cases hm : mapFailed (child1Status e m) <;>
      simp [unshare_userns, hp, hf, hu, hc, hw, hm]

/-- Claim C2 witness: the amended statement at the unshare-failure
execution, where the reap count is 0. -/
theorem C2_delegate_reaped_only_past_close_witness :
    (unshare_userns envUnshareFail m0).2.count Event.evWait1 =
      (if envUnshareFail.unshareOk && envUnshareFail.parentCloseReadOk
        then 1 else 0) :=
  C2_delegate_reaped_only_past_close envUnshareFail m0 rfl rfl

/-- Claim C3 counterexample: a run where the newuidmap program exits with
status 1 and a run where the newgidmap program exits with status 1 yield
the identical return value 256 (raw wait status of an exit-1 child), so
the value returned to the caller does not identify which role failed. -/
theorem C3_counterexample :
    (unshare_userns envUidFail m0).1 = ParentResult.ret 256 ∧
    (unshare_userns envGidFail m0).1 = ParentResult.ret 256 ∧
    (delegate envUidFail m0).1 =
      ChildOutcome.execed "/usr/bin/newuidmap" (uidmapArgs m0) ∧
    (delegate envGidFail m0).1 = ChildOutcome.exited 1 := by decide

/-- Claim C3, amended: on a mapping failure the caller receives the
Delegate's raw wait status — the same encoding whether the UID or the GID
program failed — so the raw status is carried but no UID/GID role tag
exists. -/
theorem C3_raw_status_returned (e : SysEnv) (m : Maps)
    (hp : e.pipeOk = true) (hf : e.fork1Ok = true) (hu : e.unshareOk = true)
    (hc : e.parentCloseReadOk = true) (hw : e.wait1Ok = true)
    (hm : mapFailed (child1Status e m) = true) :
    (unshare_userns e m).1 = ParentResult.ret (Int.ofNat (child1Status e m)) := by
  simp [unshare_userns, hp, hf, hu, hc, hw, hm]

/-- Claim C3 witness: the amended statement at the newuidmap-exits-1
execution. -/
theorem C3_raw_status_returned_witness :
    (unshare_userns envUidFail m0).1 =
      ParentResult.ret (Int.ofNat (child1Status envUidFail m0)) :=
  C3_raw_status_returned envUidFail m0 rfl rfl rfl rfl rfl (by decide)

/-- Claim C4 counterexample: a failure after the namespace was
successfully unshared (the post-unshare `close(pipefd[0])` fails, with
`evUnshare` in the trace) returns -1, and so does a failure before any
namespace change (`pipe` fails, no `evUnshare`): the return value -1 is
shared between the two classes the claim requires to be disjoint. -/
theorem C4_counterexample :
    (unshare_userns envCloseFail m0).1 = ParentResult.ret (-1) ∧
    (unshare_userns envPipeFail m0).1 = ParentResult.ret (-1) ∧
    Event.evUnshare ∈ (unshare_userns envCloseFail m0).2 ∧
    Event.evUnshare ∉ (unshare_userns envPipeFail m0).2 := by decide

/-- Claim C4, amended: the call returns -1 exactly when the pipe, the
fork, the unshare, or the post-unshare close fails — one shared value
covering both pre-namespace failures and the post-unshare close failure;
only mapping failures get a distinct (nonnegative raw status) value. -/
theorem C4_minus_one_shared_across_classes (e : SysEnv) (m : Maps) :
    (unshare_userns e m).1 = ParentResult.ret (-1) ↔
      (e.pipeOk = false ∨ e.fork1Ok = false ∨ e.unshareOk = false ∨
       e.parentCloseReadOk = false) := by
  cases hp : e.pipeOk <;> cases hf : e.fork1Ok <;> cases hu : e.unshareOk <;>
    cases hc : e.parentCloseReadOk <;> cases hw : e.wait1Ok <;>
      cases hm : mapFailed (child1Status e m) <;>
        simp [unshare_userns, hp, hf, hu, hc, hw, hm]

/-- Claim C5: with outside_root "0", outside_sub_start "100000" and length
"65536", the newuidmap argument vector is exactly
["newuidmap", pid, "0", "0", "1", "1", "100000", "65536"], the Delegate
execs the UID program with exactly that vector, and the newgidmap vector
follows the same positional grammar with the GID request values. -/
theorem C5_uid_argument_vector (pid gr gs gl : String) :
    uidmapArgs (Maps.mk pid "0" "100000" "65536" gr gs gl) =
      ["newuidmap", pid, "0", "0", "1", "1", "100000", "65536"] ∧
    (delegate envOK (Maps.mk pid "0" "100000" "65536" gr gs gl)).1 =
      ChildOutcome.execed "/usr/bin/newuidmap"
        ["newuidmap", pid, "0", "0", "1", "1", "100000", "65536"] ∧
    gidmapArgs (Maps.mk pid "0" "100000" "65536" gr gs gl) =
      ["newgidmap", pid, "0", gr, "1", "1", gs, gl] :=
  ⟨rfl,
   by simp [delegate, envOK, child2Status, subDelegate, mapFailed, wifexited,
            wexitstatus, uidmapArgs],
   rfl⟩

/-- Claim C6: once the Sub-delegate is forked the Delegate always waits
for it; it invokes the UID-mapping program exactly when the Sub-delegate's
wait succeeded and reported a normal exit with status 0, and on every
other outcome it exits with failure status 1 without invoking the UID
program. -/
theorem C6_uid_exec_gated_on_gid_success (e : SysEnv) (m : Maps)
    (hcw : e.delegateCloseWriteOk = true) (hf2 : e.fork2Ok = true) :
    Event.evWait2 ∈ (delegate e m).2 ∧
    (Event.evExec "/usr/bin/newuidmap" (uidmapArgs m) ∈ (delegate e m).2 ↔
      gidSuccess e m = true) ∧
    (gidSuccess e m = false → (delegate e m).1 = ChildOutcome.exited 1) := by
  cases hw : e.wait2Ok <;> cases hm : mapFailed (child2Status e m) <;>
    cases hx : e.uidExecOk <;>
      simp [delegate, gidSuccess, hcw, hf2, hw, hm, hx]

/-- Claim C6 witness: at an execution where the GID program exited 1, the
Delegate waits, never invokes newuidmap, and exits 1. -/
theorem C6_uid_exec_gated_on_gid_success_witness :
    Event.evWait2 ∈ (delegate envGidFail m0).2 ∧
    (Event.evExec "/usr/bin/newuidmap" (uidmapArgs m0) ∈ (delegate envGidFail m0).2 ↔
      gidSuccess envGidFail m0 = true) ∧
    (gidSuccess envGidFail m0 = false →
      (delegate envGidFail m0).1 = ChildOutcome.exited 1) :=
  C6_uid_exec_gated_on_gid_success envGidFail m0 rfl rfl

/-- Claim C7: the Delegate's behavior — outcome and full event trace — is
the same for every outcome of the channel read (byte delivered,
end-of-file, or error), and after a successful close of the write end its
first four operations are close(write end), read, close(read end),
fork of the Sub-delegate. -/
theorem C7_read_outcome_irrelevant (e : SysEnv) (m : Maps) (r1 r2 : ReadResult) :
    delegate { e with readResult := r1 } m = delegate { e with readResult := r2 } m ∧
    (e.delegateCloseWriteOk = true →
      (delegate e m).2.take 4 =
        [Event.evClose Fd.writeEnd, Event.evRead, Event.evClose Fd.readEnd,
         Event.evFork2]) := by
  refine ⟨rfl, fun hcw => ?_⟩
  cases hf2 : e.fork2Ok <;> cases hw : e.wait2Ok <;>
    cases hm : mapFailed (child2Status e m) <;> cases hx : e.uidExecOk <;>
      simp [delegate, hcw, hf2, hw, hm, hx]

/-- Claim C7 witness: end-of-file and a delivered byte give the same
Delegate run, and the first four operations are as stated. -/
theorem C7_read_outcome_irrelevant_witness :
    delegate { envOK with readResult := ReadResult.eof } m0 =
      delegate { envOK with readResult := ReadResult.gotByte 7 } m0 ∧
    (envOK.delegateCloseWriteOk = true →
      (delegate envOK m0).2.take 4 =
        [Event.evClose Fd.writeEnd, Event.evRead, Event.evClose Fd.readEnd,
         Event.evFork2]) :=
  C7_read_outcome_irrelevant envOK m0 ReadResult.eof (ReadResult.gotByte 7)

/-- Claim C8: no operation performed by the Delegate or the Sub-delegate
between its fork and its exec or exit is a dynamic heap allocation: the
allocation event never occurs in either child's trace, in any
environment. -/
theorem C8_no_allocation_in_children (e : SysEnv) (m : Maps) :
    Event.evAlloc ∉ (delegate e m).2 ∧ Event.evAlloc ∉ (subDelegate e m).2 := by
  constructor
  · cases hcw : e.delegateCloseWriteOk <;> cases hf2 : e.fork2Ok <;>
      cases hw : e.wait2Ok <;> cases hm : mapFailed (child2Status e m) <;>
        cases hx : e.uidExecOk <;> simp [delegate, hcw, hf2, hw, hm, hx]
  · cases hg : e.gidExecOk <;> simp [subDelegate, hg]

/-- Claim C9: when the parent's `waitpid(child1, ...)` fails, the call
does not return a value: the whole process is terminated with
EXIT_FAILURE. -/
theorem C9_wait_failure_exits_process (e : SysEnv) (m : Maps)
    (hp : e.pipeOk = true) (hf : e.fork1Ok = true) (hu : e.unshareOk = true)
    (hc : e.parentCloseReadOk = true) (hw : e.wait1Ok = false) :
    (unshare_userns e m).1 = ParentResult.exitFail := by
  simp [unshare_userns, hp, hf, hu, hc, hw]

/-- Claim C9 witness: the waitpid-failure execution terminates the
process. -/
theorem C9_wait_failure_exits_process_witness :
    (unshare_userns envWaitFail m0).1 = ParentResult.exitFail :=
  C9_wait_failure_exits_process envWaitFail m0 rfl rfl rfl rfl rfl

/-- Claim C10: the Delegate's first operation is always the close of its
inherited copy of the write end — so it precedes the blocking read — and
when that close fails the Delegate exits with failure status 1 having
performed no read and no fork of the Sub-delegate. -/
theorem C10_close_write_first_and_failure_stops (e : SysEnv) (m : Maps) :
    (delegate e m).2.head? = some (Event.evClose Fd.writeEnd) ∧
    (e.delegateCloseWriteOk = false →
      (delegate e m).1 = ChildOutcome.exited 1 ∧
      (delegate e m).2 = [Event.evClose Fd.writeEnd]) := by
  constructor
  · cases hcw : e.delegateCloseWriteOk <;> cases hf2 : e.fork2Ok <;>
      cases hw : e.wait2Ok <;> cases hm : mapFailed (child2Status e m) <;>
        cases hx : e.uidExecOk <;> simp [delegate, hcw, hf2, hw, hm, hx]
  · intro h
    simp [delegate, h]

/-- Claim C10 witness: the close-write-failure execution exits 1 after the
single close operation. -/
theorem C10_close_write_first_and_failure_stops_witness :
    (delegate envDelegateCloseFail m0).2.head? = some (Event.evClose Fd.writeEnd) ∧
    (envDelegateCloseFail.delegateCloseWriteOk = false →
      (delegate envDelegateCloseFail m0).1 = ChildOutcome.exited 1 ∧
      (delegate envDelegateCloseFail m0).2 = [Event.evClose Fd.writeEnd]) :=
  C10_close_write_first_and_failure_stops envDelegateCloseFail m0

end UnshareUserns
